import Mathlib

/-!
Shallow embedding of the `agent_server` backend (`src/agent_server/main.py`).

The program is a FastAPI service with two endpoints, `/ask` and `/edit`,
backed by three SQLAlchemy tables (conversations, messages, files) and an
external chat model.  The embedding below renders:

* the three table rows as structures and the committed database as `DBState`
  (each `db.commit()` in the source is one atomic list append here; uuid ids
  and `datetime.utcnow` timestamps are modelled by a strictly increasing
  `tick` counter, which preserves exactly what the claims need: freshness and
  monotone creation order);
* the external model (`model.invoke`) as a function parameter returning
  `Except String _`, so an upstream failure is an `Except.error` that the
  endpoint either propagates or not, exactly as the Python exception would;
* the dynamic JSON payloads (LangChain tool calls, the edit endpoint's
  response dict) as the `Jv` type; Python's
  `json.loads(json.dumps(x, default=str))` is the identity on such values;
* Python dicts (`req.files`, each file's line map) as association lists in
  insertion order, which is what Python 3.7+ dict iteration yields;
  `sorted(d.items())` on a dict with (necessarily unique) integer keys is a
  stable sort by key, embedded with `List.insertionSort`.
-/

namespace AgentServer

/-- JSON-like values: the dynamic dict/list payloads that the Python code
moves around untyped (tool-call payloads, `main.py` lines 274-284, and the
response body of the edit endpoint, lines 303-307). -/
inductive Jv where
  | null : Jv
  | str : String → Jv
  | num : Int → Jv
  | arr : List Jv → Jv
  | obj : List (String × Jv) → Jv
deriving Repr, Inhabited

/-- Row of the `conversations` table (`main.py` lines 39-44). -/
structure Conversation where
  id : String
  created_at : Nat
  agent_type : String
deriving Repr, DecidableEq

/-- Row of the `messages` table (`main.py` lines 46-55). -/
structure Message where
  id : String
  conversation_id : String
  sender : String
  content : String
  created_at : Nat
  message_type : String
deriving Repr, DecidableEq

/-- Row of the `files` table (`main.py` lines 57-63); `file_content` is the
JSON line map `{line_number: line}` kept as an association list. -/
structure DBFile where
  id : String
  message_id : String
  file_content : List (Nat × String)
  file_name : String
deriving Repr, DecidableEq

/-- Committed database state plus a tick counter supplying fresh ids and
monotone timestamps.  Each `db.commit()` of the source is one atomic
transition on this state. -/
structure DBState where
  conversations : List Conversation
  messages : List Message
  files : List DBFile
  tick : Nat
deriving Repr, DecidableEq

/-- LangChain chat messages: `SystemMessage` / `HumanMessage` / `AIMessage`. -/
inductive ChatMessage where
  | system : String → ChatMessage
  | human : String → ChatMessage
  | ai : String → ChatMessage
deriving Repr, DecidableEq

/-- User-visible request failures of the two endpoints: the explicit
`HTTPException(status_code=404, detail="Conversation not found")` and an
uncaught exception escaping `model.invoke` (upstream model error). -/
inductive ApiError where
  | notFound : Nat → String → ApiError
  | upstream : String → ApiError
deriving Repr, DecidableEq

/-- Body of a POST to `/ask` (`AskRequest`, `main.py` lines 154-156). -/
structure AskRequest where
  message : String
  conversation_id : Option String
deriving Repr, DecidableEq

/-- Body of a successful `/ask` response (`AskResponse`, lines 158-160). -/
structure AskResponse where
  conversation_id : String
  message : String
deriving Repr, DecidableEq

/-- Body of a POST to `/edit` (`EditRequest`, lines 162-165): `files` maps
file name to a line map; both dicts are kept in caller-supplied order. -/
structure EditRequest where
  prompt : String
  files : List (String × List (Nat × String))
  conversation_id : Option String
deriving Repr, DecidableEq

/-- Response the model wrapper returns in the edit flow: text content plus
the `tool_calls` attribute (a list of JSON-able dicts; empty when absent). -/
structure EditAIResponse where
  content : String
  tool_calls : List Jv
deriving Repr, Inhabited

/-- Lookup of `db.query(Conversation).filter_by(id=cid, agent_type=persona).first()`
(`main.py` lines 189 and 226): the filter uses BOTH the id and the persona. -/
def findConversation (db : DBState) (cid : String) (persona : String) :
    Option Conversation :=
  db.conversations.find? (fun c => c.id == cid && c.agent_type == persona)

/-- Ordering used by `order_by(Message.created_at)`: ascending timestamp. -/
def msgLe (a b : Message) : Prop := a.created_at ≤ b.created_at

instance : DecidableRel msgLe := fun a b => Nat.decLe a.created_at b.created_at

instance : IsTotal Message msgLe := ⟨fun a b => Nat.le_total a.created_at b.created_at⟩

instance : IsTrans Message msgLe := ⟨fun _ _ _ => Nat.le_trans⟩

/-- Embedding of `db.query(Message).filter_by(conversation_id=...).order_by(Message.created_at).all()`
(`main.py` lines 198 and 235): the stored rows of the conversation, sorted
ascending by creation timestamp (stable sort). -/
def listMessages (db : DBState) (cid : String) : List Message :=
  (db.messages.filter (fun m => m.conversation_id == cid)).insertionSort msgLe

/-- Conversation creation branch (`main.py` lines 193-196 / 230-233):
`Conversation(agent_type=persona)` gets a fresh uuid and timestamp, is added
and committed at once. -/
def createConversation (persona : String) (db : DBState) :
    Conversation × DBState :=
  let conv : Conversation := { id := "conv-" ++ toString db.tick,
                               created_at := db.tick, agent_type := persona }
  (conv, { db with conversations := db.conversations ++ [conv],
                   tick := db.tick + 1 })

/-- Step 1 of both endpoints (`main.py` lines 188-196 and 225-233).  Note the
source tests `if req.conversation_id:`, i.e. Python string TRUTHINESS: both a
missing id and an EMPTY-STRING id take the creation branch; only a non-empty
id is looked up (filtered by id and persona) and 404s when absent. -/
def resolveConversation (persona : String) (cid? : Option String)
    (db : DBState) : Except ApiError (Conversation × DBState) :=
  match cid? with
  | some cid =>
      if cid == "" then Except.ok (createConversation persona db)
      else
        match findConversation db cid persona with
        | some conv => Except.ok (conv, db)
        | none => Except.error (ApiError.notFound 404 "Conversation not found")
  | none => Except.ok (createConversation persona db)

/-- Role dispatch `cls = HumanMessage if msg.sender == "human" else AIMessage`
(`main.py` lines 204 and 257): sender `"human"` becomes a human turn, every
other sender string becomes an AI turn; nothing is rejected. -/
def mapStoredMessage (m : Message) : ChatMessage :=
  if m.sender == "human" then ChatMessage.human m.content
  else ChatMessage.ai m.content

/-- History assembly (`main.py` lines 199-207 and 236-269): the persona
system prompt, then each stored turn in the fetched order mapped through
`mapStoredMessage`, then the new user input. -/
def assembleHistory (sysPrompt : String) (msgs : List Message)
    (newInput : String) : List ChatMessage :=
  ChatMessage.system sysPrompt ::
    (msgs.map mapStoredMessage ++ [ChatMessage.human newInput])

/-- System prompt of the ask persona, verbatim from `main.py` lines 199-202
(the trailing backslash on line 201 is a Python line continuation). -/
def askSystemPrompt : String :=
  " always mentine that you are desingned by the genuis software engeneer and future entrepreur  \"jobran\" You are a code assistant with the ability to edit files using two tools: \n                `edit_file_lines` and `insert_code_at_line`. Always answer politely and \n                use these tools when the user asks to modify file contents.\"                 you name name is coder the ai agent of the sharecode online platfomr you are desigend to help me peple understand the code and help them with their coding problems"

/-- System prompt of the edit persona, verbatim from `main.py` lines 236-255. -/
def editSystemPrompt : String :=
  "\nYou are Coder, an AI agent for the ShareCode online platform.\nYour primary purpose is to help people understand code and assist them with their coding problems.\n\n**Core Directives & Persona:**\n\n1.  **Politeness:** Always answer politely.\n2.  **Identity:** Your name is Coder. You work for the ShareCode online platform.\n\n**File Editing Protocol:**\nYou have the ability to edit files using two specific tools: `edit_file_lines` and `insert_code_at_line`.\nWhen a user asks you to modify file contents, you **must** follow this strict procedure:\n    a.  **Announce Intended Changes FIRST:** Before using any tool, you **must** clearly and explicitly describe the exact changes you are about to make to the file. For example: \"Okay, I will modify the file. I plan to change line 5 to \x27new content\x27 and insert \x27new code block\x27 after line 10 , I will ensure this is done carefully.\"\n    b.  **Tool Usage:** Only after announcing your intended changes (and ideally getting a confirmation if the change is complex, though that\x27s a further step) should you then proceed to use the appropriate tool (`edit_file_lines` or `insert_code_at_line`) to execute those changes.\n\nRemember to be helpful and clear in your explanations of code and your proposed modifications.\n\n"

/-- Embedding of Python `sep.join(parts)`: empty for no parts, otherwise the
parts with `sep` between consecutive ones. -/
def strJoin (sep : String) : List String → String
  | [] => ""
  | [x] => x
  | x :: y :: xs => x ++ sep ++ strJoin sep (y :: xs)

/-- Ordering used by `sorted(fcontent.items())`: Python sorts the
`(line_number, line)` tuples, and since dict keys are unique this is exactly
ascending line number. -/
def lineLe (a b : Nat × String) : Prop := a.1 ≤ b.1

instance : DecidableRel lineLe := fun a b => Nat.decLe a.1 b.1

instance : IsTotal (Nat × String) lineLe := ⟨fun a b => Nat.le_total a.1 b.1⟩

instance : IsTrans (Nat × String) lineLe := ⟨fun _ _ _ => Nat.le_trans⟩

/-- Embedding of `sorted(fcontent.items())` (`main.py` line 263). -/
def sortedItems (lines : List (Nat × String)) : List (Nat × String) :=
  lines.insertionSort lineLe

/-- Rendering `f"{ln}: {content}"` of one file line (`main.py` line 263). -/
def renderLine (l : Nat × String) : String := toString l.1 ++ ": " ++ l.2

/-- Per-file block `f"{fname}:\n"` plus the sorted lines joined by newlines
(`main.py` line 263). -/
def renderFileBlock (f : String × List (Nat × String)) : String :=
  f.1 ++ ":\n" ++ strJoin "\n" ((sortedItems f.2).map renderLine)

/-- Embedding of `main.py` lines 260-265: `file_lines_prompt` is `""` and is
reassigned to the joined file blocks only when `req.files` is truthy
(non-empty). -/
def fileLinesPrompt (files : List (String × List (Nat × String))) : String :=
  if files.isEmpty then ""
  else strJoin "\n" (files.map renderFileBlock)

/-- Embedding of `main.py` lines 266-268: the user prompt, augmented with the
serialized file block when `file_lines_prompt` is truthy (non-empty). -/
def buildPrompt (req : EditRequest) : String :=
  let flp := fileLinesPrompt req.files
  if flp == "" then req.prompt else req.prompt ++ "\n\nFiles:\n" ++ flp

/-- Runtime behaviour of the `edit_file_lines` tool (`main.py` lines 96-117):
per its own docstring it returns the batch untouched; a Python `TypedDict`
annotation performs no runtime check on the values that flow through. -/
def edit_file_lines (changes : List Jv) : List Jv := changes

/-- Runtime behaviour of the `insert_code_at_lines` tool (`main.py` lines
122-143): identity, as documented in its docstring. -/
def insert_code_at_lines (changes : List Jv) : List Jv := changes

/-- Tool-call extraction of the edit endpoint (`main.py` lines 275-284):
`getattr(ai_response, "tool_calls", None)` is falsy for an empty list, giving
`None`; otherwise `json.loads(json.dumps(tool_calls, default=str))` is the
identity serialization of the list. -/
def toolCallsJson (tcs : List Jv) : Option Jv :=
  if tcs.isEmpty then none else some (Jv.arr tcs)

/-- Embedding of `ask_endpoint` (`main.py` lines 184-220).  The external
model is a parameter; a raised exception is `Except.error`.  Returns the
request outcome together with the committed database state at exit. -/
def ask_endpoint (model : List ChatMessage → Except String String)
    (req : AskRequest) (db : DBState) :
    Except ApiError AskResponse × DBState :=
  match resolveConversation "ask" req.conversation_id db with
  | Except.error e => (Except.error e, db)
  | Except.ok (conv, db1) =>
      let msgs := listMessages db1 conv.id
      let chat_history := assembleHistory askSystemPrompt msgs req.message
      match model chat_history with
      | Except.error e => (Except.error (ApiError.upstream e), db1)
      | Except.ok content =>
          let user_msg : Message :=
            { id := "msg-" ++ toString db1.tick, conversation_id := conv.id,
              sender := "human", content := req.message,
              created_at := db1.tick, message_type := "ask" }
          let ai_msg : Message :=
            { id := "msg-" ++ toString (db1.tick + 1),
              conversation_id := conv.id, sender := "ai", content := content,
              created_at := db1.tick + 1, message_type := "ask" }
          let db2 : DBState :=
            { db1 with messages := db1.messages ++ [user_msg, ai_msg],
                       tick := db1.tick + 2 }
          (Except.ok { conversation_id := conv.id, message := content }, db2)

/-- Embedding of `edit_endpoint` (`main.py` lines 222-307).  The success
value is the literal dict built on lines 303-307, kept as an association
list: note it carries `conversation_id`, `message` and `tool_calls` ONLY —
the `files_response` dict built on lines 296-300 is dropped, and the declared
`EditResponse` schema (lines 167-170) is not attached to the route. -/
def edit_endpoint (model : List ChatMessage → Except String EditAIResponse)
    (req : EditRequest) (db : DBState) :
    Except ApiError (List (String × Jv)) × DBState :=
  match resolveConversation "edit" req.conversation_id db with
  | Except.error e => (Except.error e, db)
  | Except.ok (conv, db1) =>
      let msgs := listMessages db1 conv.id
      let prompt := buildPrompt req
      let chat_history := assembleHistory editSystemPrompt msgs prompt
      match model chat_history with
      | Except.error e => (Except.error (ApiError.upstream e), db1)
      | Except.ok ai_response =>
          let tool_calls_json := toolCallsJson ai_response.tool_calls
          let returned_files := req.files
          let user_msg : Message :=
            { id := "msg-" ++ toString db1.tick, conversation_id := conv.id,
              sender := "human", content := prompt,
              created_at := db1.tick, message_type := "edit" }
          let ai_msg : Message :=
            { id := "msg-" ++ toString (db1.tick + 1),
              conversation_id := conv.id, sender := "ai",
              content := ai_response.content,
              created_at := db1.tick + 1, message_type := "edit" }
          let db2 : DBState :=
            { db1 with messages := db1.messages ++ [user_msg, ai_msg],
                       tick := db1.tick + 2 }
          let new_files : List DBFile := returned_files.enum.map (fun fi =>
            { id := "file-" ++ toString (db2.tick + fi.1),
              message_id := ai_msg.id, file_content := fi.2.2,
              file_name := fi.2.1 })
          let db3 : DBState :=
            { db2 with files := db2.files ++ new_files,
                       tick := db2.tick + new_files.length }
          (Except.ok [("conversation_id", Jv.str conv.id),
                      ("message", Jv.str ai_response.content),
                      ("tool_calls", tool_calls_json.getD Jv.null)], db3)

/-- Field lookup in a JSON object value. -/
def jGet (j : Jv) (k : String) : Option Jv :=
  match j with
  | Jv.obj fields => fields.lookup k
  | _ => none

/-- Modelled from the spec: validity of one `EditOperation` per the Edit
Proposal Schema — integer `line_start` and `line_end` with
`line_start <= line_end` and a string `new_content` (spec sections 3 and 7).
This validator exists nowhere in the source; it is the spec-side yardstick
the code's behaviour is compared against. -/
def specValidEditOperation (j : Jv) : Bool :=
  match jGet j "line_start", jGet j "line_end", jGet j "new_content" with
  | some (Jv.num a), some (Jv.num b), some (Jv.str _) => a ≤ b
  | _, _, _ => false

/-- Modelled from the spec: validity of one `FileEdits` batch — a string
`file_name` plus a list of valid `EditOperation`s (spec sections 3 and 4.3). -/
def specValidFileEdits (j : Jv) : Bool :=
  match jGet j "file_name", jGet j "edits" with
  | some (Jv.str _), some (Jv.arr es) => es.all specValidEditOperation
  | _, _ => false

/-! Helper lemmas shared by the claim theorems. -/

/-- Whatever branch `resolveConversation` takes on success, it never touches
the message or file tables, and it either leaves the conversation table alone
(existing id) or appends exactly the returned conversation (creation). -/
theorem resolveConversation_state (p : String) (cid? : Option String)
    (db : DBState) (conv : Conversation) (db1 : DBState)
    (h : resolveConversation p cid? db = Except.ok (conv, db1)) :
    db1.messages = db.messages ∧ db1.files = db.files ∧
    (db1.conversations = db.conversations ∨
      db1.conversations = db.conversations ++ [conv]) := by
  cases cid? with
  | none =>
      simp only [resolveConversation, createConversation, Except.ok.injEq,
        Prod.mk.injEq] at h
      obtain ⟨h1, h2⟩ := h
      subst h1
      subst h2
      exact ⟨rfl, rfl, Or.inr rfl⟩
  | some cid =>
      simp only [resolveConversation] at h
      split at h
      · simp only [createConversation, Except.ok.injEq, Prod.mk.injEq] at h
        obtain ⟨h1, h2⟩ := h
        subst h1
        subst h2
        exact ⟨rfl, rfl, Or.inr rfl⟩
      · split at h
        · simp only [Except.ok.injEq, Prod.mk.injEq] at h
          obtain ⟨h1, h2⟩ := h
          subst h1
          subst h2
          exact ⟨rfl, rfl, Or.inl rfl⟩
        · simp at h

/-- A joined string whose head part has length at least two is non-empty. -/
theorem strJoin_ne_empty (sep b : String) (bs : List String)
    (h : 2 ≤ b.length) : strJoin sep (b :: bs) ≠ "" := by
  cases bs with
  | nil =>
      intro he
      rw [strJoin] at he
      subst he
      simp at h
  | cons c cs =>
      intro he
      rw [strJoin] at he
      have hlen := congrArg String.length he
      rw [show ("" : String).length = 0 from rfl] at hlen
      simp only [String.length_append] at hlen
      omega

/-- Every rendered file block starts with the file name and a `":\n"`, so it
has length at least two. -/
theorem renderFileBlock_length (f : String × List (Nat × String)) :
    2 ≤ (renderFileBlock f).length := by
  unfold renderFileBlock
  simp only [String.length_append]
  have : (":\n").length = 2 := rfl
  omega

/-- With at least one file supplied, the serialized file block is non-empty
(so the `if file_lines_prompt:` truthiness test on `main.py` line 267 fires
exactly when `req.files` is non-empty). -/
theorem fileLinesPrompt_ne_empty (files : List (String × List (Nat × String)))
    (h : files ≠ []) : fileLinesPrompt files ≠ "" := by
  cases files with
  | nil => exact absurd rfl h
  | cons f fs =>
      unfold fileLinesPrompt
      simp only [List.isEmpty_cons, List.map_cons, if_false, Bool.false_eq_true,
        ite_false]
      exact strJoin_ne_empty "\n" _ _ (renderFileBlock_length f)

/-! Concrete fixtures used by the closed theorems below. -/

/-- Empty database. -/
def db0 : DBState := { conversations := [], messages := [], files := [], tick := 0 }

/-- Edit request of the round-trip scenario of spec section 8: files
`a.py -> {1: "x", 2: "y"}`, fresh conversation. -/
def reqC1 : EditRequest :=
  { prompt := "p", files := [("a.py", [(1, "x"), (2, "y")])],
    conversation_id := none }

/-- A model stub that answers plain text and makes no tool call. -/
def modelPlain : List ChatMessage → Except String EditAIResponse :=
  fun _ => Except.ok { content := "done", tool_calls := [] }

/-- C1.  The spec says the edit response carries a `files` field echoing the
request's mapping.  The code builds `files_response` (`main.py` lines
296-300) and declares `EditResponse` with a `files` field (lines 167-170),
but the dict actually returned (lines 303-307) has only `conversation_id`,
`message` and `tool_calls`: the echo never reaches the caller.  Evaluating
the embedded endpoint on the spec's own round-trip input shows the full
response body and the absent `files` key. -/
theorem c1_files_field_missing :
    (edit_endpoint modelPlain reqC1 db0).1 =
      Except.ok [("conversation_id", Jv.str "conv-0"),
                 ("message", Jv.str "done"),
                 ("tool_calls", Jv.null)] ∧
    ((edit_endpoint modelPlain reqC1 db0).1.toOption.getD []).lookup "files"
      = none := ⟨rfl, rfl⟩

/-- One tool-call payload whose single edit has `line_start = 5 > 2 =
line_end`: invalid per the spec's Edit Proposal Schema. -/
def badEditBatch : Jv :=
  Jv.obj [("file_name", Jv.str "a.py"),
          ("edits", Jv.arr [Jv.obj [("line_start", Jv.num 5),
                                    ("line_end", Jv.num 2),
                                    ("new_content", Jv.str "x")]])]

/-- A batch with the `file_name` key absent: invalid per the spec's schema. -/
def noNameBatch : Jv :=
  Jv.obj [("edits", Jv.arr [])]

/-- A LangChain-shaped tool call carrying both invalid batches as arguments. -/
def toolCallBad : Jv :=
  Jv.obj [("name", Jv.str "edit_file_lines"),
          ("args", Jv.obj [("changes", Jv.arr [badEditBatch, noNameBatch])]),
          ("id", Jv.str "tc1"),
          ("type", Jv.str "tool_call")]

/-- Edit request used to drive the invalid tool call through the endpoint. -/
def reqC3 : EditRequest :=
  { prompt := "edit it", files := [("a.py", [(1, "x")])],
    conversation_id := none }

/-- Model stub whose response carries the invalid tool call. -/
def modelBadTool : List ChatMessage → Except String EditAIResponse :=
  fun _ => Except.ok { content := "m", tool_calls := [toolCallBad] }

/-- C3 counterexample.  Both malformed batches fail the spec's schema
(`specValidFileEdits = false`), yet the code rejects neither: the
`edit_file_lines` tool returns them untouched, and the endpoint serializes
the tool call into the response verbatim — accepted and passed through, not
rejected. -/
theorem c3_counterexample :
    specValidFileEdits badEditBatch = false ∧
    specValidFileEdits noNameBatch = false ∧
    edit_file_lines [badEditBatch, noNameBatch] = [badEditBatch, noNameBatch] ∧
    (edit_endpoint modelBadTool reqC3 db0).1 =
      Except.ok [("conversation_id", Jv.str "conv-0"),
                 ("message", Jv.str "m"),
                 ("tool_calls", Jv.arr [toolCallBad])] :=
  ⟨rfl, rfl, rfl, rfl⟩

/-- C3 amended.  The core performs no validation between the model's
tool-call payloads and the response: both tool functions are the identity on
ANY batch list, and for every tool-call list `tcs` the endpoint's
`tool_calls` field is exactly the serialization `toolCallsJson tcs`
(`Jv.null` when empty), with no rejection path. -/
theorem c3_amended (db : DBState) (p : String)
    (files : List (String × List (Nat × String))) (content : String)
    (tcs changes : List Jv) :
    edit_file_lines changes = changes ∧
    insert_code_at_lines changes = changes ∧
    (edit_endpoint (fun _ => Except.ok { content := content, tool_calls := tcs })
        { prompt := p, files := files, conversation_id := none } db).1 =
      Except.ok [("conversation_id", Jv.str (createConversation "edit" db).1.id),
                 ("message", Jv.str content),
                 ("tool_calls", (toolCallsJson tcs).getD Jv.null)] :=
  ⟨rfl, rfl, rfl⟩

/-- C4 counterexample.  Run `/ask` with no conversation id against an empty
store and a failing model: the request fails upstream, yet the freshly
created conversation is already durably committed (`db.commit()` on
`main.py` line 195 ran before the model call) while no message was stored —
the request's writes did not commit together. -/
theorem c4_counterexample :
    (ask_endpoint (fun _ => Except.error "boom")
        { message := "hello", conversation_id := none } db0).1 =
      Except.error (ApiError.upstream "boom") ∧
    (ask_endpoint (fun _ => Except.error "boom")
        { message := "hello", conversation_id := none } db0).2.conversations =
      [{ id := "conv-0", created_at := 0, agent_type := "ask" }] ∧
    (ask_endpoint (fun _ => Except.error "boom")
        { message := "hello", conversation_id := none } db0).2.messages = [] :=
  ⟨rfl, rfl, rfl⟩

/-- C8 counterexample.  The creation branch is taken not only when the id is
omitted: the source tests `if req.conversation_id:` (Python truthiness), so a
request that SUPPLIES `conversation_id = ""` also creates a fresh
conversation record instead of looking one up. -/
theorem c8_counterexample :
    resolveConversation "ask" (some "") db0 =
      Except.ok ({ id := "conv-0", created_at := 0, agent_type := "ask" },
        { conversations := [{ id := "conv-0", created_at := 0, agent_type := "ask" }],
          messages := [], files := [], tick := 1 }) ∧
    (ask_endpoint (fun _ => Except.ok "r")
        { message := "m", conversation_id := some "" } db0).2.conversations.length = 1 :=
  ⟨rfl, rfl⟩

/-- Human-authored message row exactly as the endpoints construct it. -/
def humanRow (cid content : String) (t : Nat) (mtype : String) : Message :=
  { id := "msg-" ++ toString t, conversation_id := cid, sender := "human",
    content := content, created_at := t, message_type := mtype }

/-- AI-authored message row exactly as the endpoints construct it. -/
def aiRow (cid content : String) (t : Nat) (mtype : String) : Message :=
  { id := "msg-" ++ toString t, conversation_id := cid, sender := "ai",
    content := content, created_at := t, message_type := mtype }

/-- Run of `/ask` when the conversation lookup fails: the 404 surfaces and
the state is untouched. -/
theorem ask_endpoint_notFound_run (am : List ChatMessage → Except String String)
    (ar : AskRequest) (adb : DBState) (err : ApiError)
    (hres : resolveConversation "ask" ar.conversation_id adb = Except.error err) :
    ask_endpoint am ar adb = (Except.error err, adb) := by
  simp only [ask_endpoint, hres]

/-- Run of `/ask` when the model call fails: the upstream error surfaces and
the state is exactly the post-resolution state (no message committed). -/
theorem ask_endpoint_upstream_run (am : List ChatMessage → Except String String)
    (ar : AskRequest) (adb : DBState) (conv : Conversation) (db1 : DBState)
    (e : String)
    (hres : resolveConversation "ask" ar.conversation_id adb = Except.ok (conv, db1))
    (hmod : am (assembleHistory askSystemPrompt (listMessages db1 conv.id)
        ar.message) = Except.error e) :
    ask_endpoint am ar adb = (Except.error (ApiError.upstream e), db1) := by
  simp only [ask_endpoint, hres, hmod]

/-- Successful run of `/ask`: response fields and the one commit appending
the human/AI message pair. -/
theorem ask_endpoint_ok_run (am : List ChatMessage → Except String String)
    (ar : AskRequest) (adb : DBState) (conv : Conversation) (db1 : DBState)
    (content : String)
    (hres : resolveConversation "ask" ar.conversation_id adb = Except.ok (conv, db1))
    (hmod : am (assembleHistory askSystemPrompt (listMessages db1 conv.id)
        ar.message) = Except.ok content) :
    (ask_endpoint am ar adb).1 =
      Except.ok { conversation_id := conv.id, message := content } ∧
    (ask_endpoint am ar adb).2.conversations = db1.conversations ∧
    (ask_endpoint am ar adb).2.messages =
      db1.messages ++ [humanRow conv.id ar.message db1.tick "ask",
                       aiRow conv.id content (db1.tick + 1) "ask"] ∧
    (ask_endpoint am ar adb).2.files = db1.files := by
  simp [ask_endpoint, hres, hmod, humanRow, aiRow]

/-- Run of `/edit` when the conversation lookup fails. -/
theorem edit_endpoint_notFound_run
    (em : List ChatMessage → Except String EditAIResponse) (er : EditRequest)
    (edb : DBState) (err : ApiError)
    (hres : resolveConversation "edit" er.conversation_id edb = Except.error err) :
    edit_endpoint em er edb = (Except.error err, edb) := by
  simp only [edit_endpoint, hres]

/-- Run of `/edit` when the model call fails. -/
theorem edit_endpoint_upstream_run
    (em : List ChatMessage → Except String EditAIResponse) (er : EditRequest)
    (edb : DBState) (conv : Conversation) (db1 : DBState) (e : String)
    (hres : resolveConversation "edit" er.conversation_id edb = Except.ok (conv, db1))
    (hmod : em (assembleHistory editSystemPrompt (listMessages db1 conv.id)
        (buildPrompt er)) = Except.error e) :
    edit_endpoint em er edb = (Except.error (ApiError.upstream e), db1) := by
  simp only [edit_endpoint, hres, hmod]

/-- Successful run of `/edit`: response fields, the message-pair commit and
the file-snapshot commit (each snapshot owned by the AI message). -/
theorem edit_endpoint_ok_run
    (em : List ChatMessage → Except String EditAIResponse) (er : EditRequest)
    (edb : DBState) (conv : Conversation) (db1 : DBState) (resp : EditAIResponse)
    (hres : resolveConversation "edit" er.conversation_id edb = Except.ok (conv, db1))
    (hmod : em (assembleHistory editSystemPrompt (listMessages db1 conv.id)
        (buildPrompt er)) = Except.ok resp) :
    (edit_endpoint em er edb).1 =
      Except.ok [("conversation_id", Jv.str conv.id),
                 ("message", Jv.str resp.content),
                 ("tool_calls", (toolCallsJson resp.tool_calls).getD Jv.null)] ∧
    (edit_endpoint em er edb).2.conversations = db1.conversations ∧
    (edit_endpoint em er edb).2.messages =
      db1.messages ++ [humanRow conv.id (buildPrompt er) db1.tick "edit",
                       aiRow conv.id resp.content (db1.tick + 1) "edit"] ∧
    (edit_endpoint em er edb).2.files =
      db1.files ++ er.files.enum.map (fun fi =>
        { id := "file-" ++ toString (db1.tick + 2 + fi.1),
          message_id := "msg-" ++ toString (db1.tick + 1),
          file_content := fi.2.2, file_name := fi.2.1 }) := by
  simp [edit_endpoint, hres, hmod, humanRow, aiRow]

/-- C2.  Conversation lookup filters by both id and persona (`filter_by(id=...,
agent_type=...)`), so a request supplying a (non-empty; stored uuid ids are
never empty) conversation id whose stored persona tag differs from the
endpoint's persona fails with the 404 and leaves the database exactly as it
was: no conversation, message or file is persisted. -/
theorem c2_persona_isolation
    (askModel : List ChatMessage → Except String String)
    (editModel : List ChatMessage → Except String EditAIResponse)
    (db : DBState) (cid msg p : String)
    (files : List (String × List (Nat × String)))
    (hne : cid ≠ "") :
    ((∀ c ∈ db.conversations, c.id = cid → c.agent_type ≠ "ask") →
      ask_endpoint askModel { message := msg, conversation_id := some cid } db =
        (Except.error (ApiError.notFound 404 "Conversation not found"), db)) ∧
    ((∀ c ∈ db.conversations, c.id = cid → c.agent_type ≠ "edit") →
      edit_endpoint editModel
          { prompt := p, files := files, conversation_id := some cid } db =
        (Except.error (ApiError.notFound 404 "Conversation not found"), db)) := by
  have hbeq : (cid == "") = false := beq_eq_false_iff_ne.mpr hne
  have hfind : ∀ persona : String,
      (∀ c ∈ db.conversations, c.id = cid → c.agent_type ≠ persona) →
      findConversation db cid persona = none := by
    intro persona hP
    unfold findConversation
    rw [List.find?_eq_none]
    intro c hc
    simp only [Bool.and_eq_true, beq_iff_eq, not_and]
    intro h1 h2
    exact hP c hc h1 h2
  constructor
  · intro hA
    have hres : resolveConversation "ask" (some cid) db =
        Except.error (ApiError.notFound 404 "Conversation not found") := by
      simp [resolveConversation, hbeq, hfind "ask" hA]
    exact ask_endpoint_notFound_run askModel _ db _ hres
  · intro hE
    have hres : resolveConversation "edit" (some cid) db =
        Except.error (ApiError.notFound 404 "Conversation not found") := by
      simp [resolveConversation, hbeq, hfind "edit" hE]
    exact edit_endpoint_notFound_run editModel _ db _ hres

/-- Database fixture for the C2 witness: one edit conversation and one ask
conversation. -/
def dbW2 : DBState :=
  { conversations := [{ id := "e1", created_at := 0, agent_type := "edit" },
                      { id := "a1", created_at := 0, agent_type := "ask" }],
    messages := [], files := [], tick := 1 }

/-- C2 witness: an ask request against the edit conversation's id, and an
edit request against the ask conversation's id, both 404 and persist
nothing. -/
theorem c2_witness :
    ask_endpoint (fun _ => Except.error "x")
        { message := "m", conversation_id := some "e1" } dbW2 =
      (Except.error (ApiError.notFound 404 "Conversation not found"), dbW2) ∧
    edit_endpoint (fun _ => Except.error "x")
        { prompt := "p", files := [], conversation_id := some "a1" } dbW2 =
      (Except.error (ApiError.notFound 404 "Conversation not found"), dbW2) := by
  constructor
  · exact (c2_persona_isolation (fun _ => Except.error "x")
      (fun _ => Except.error "x") dbW2 "e1" "m" "p" [] (by decide)).1 (by decide)
  · exact (c2_persona_isolation (fun _ => Except.error "x")
      (fun _ => Except.error "x") dbW2 "a1" "m" "p" [] (by decide)).2 (by decide)

/-- C4 amended.  What does hold of commit granularity: within one request
the human and AI messages are appended by a single commit (so a final state
never holds the human turn without the paired AI turn), file snapshots are
only ever added alongside that pair and always reference the AI message, and
the conversation table grows by at most the one conversation the request
created — but that conversation creation is its own earlier transaction, so
it can persist alone (see the counterexample). -/
theorem c4_amended (am : List ChatMessage → Except String String)
    (ar : AskRequest) (adb : DBState)
    (em : List ChatMessage → Except String EditAIResponse)
    (er : EditRequest) (edb : DBState) :
    (ask_endpoint am ar adb).2.files = adb.files ∧
    ((ask_endpoint am ar adb).2.messages = adb.messages ∨
      ∃ u a, (ask_endpoint am ar adb).2.messages = adb.messages ++ [u, a] ∧
        u.sender = "human" ∧ a.sender = "ai") ∧
    ((ask_endpoint am ar adb).2.conversations = adb.conversations ∨
      ∃ c, (ask_endpoint am ar adb).2.conversations = adb.conversations ++ [c]) ∧
    (((edit_endpoint em er edb).2.messages = edb.messages ∧
        (edit_endpoint em er edb).2.files = edb.files) ∨
      ∃ u a F, (edit_endpoint em er edb).2.messages = edb.messages ++ [u, a] ∧
        u.sender = "human" ∧ a.sender = "ai" ∧
        (edit_endpoint em er edb).2.files = edb.files ++ F ∧
        ∀ f ∈ F, f.message_id = a.id) ∧
    ((edit_endpoint em er edb).2.conversations = edb.conversations ∨
      ∃ c, (edit_endpoint em er edb).2.conversations = edb.conversations ++ [c]) := by
  have hask : (ask_endpoint am ar adb).2.files = adb.files ∧
      ((ask_endpoint am ar adb).2.messages = adb.messages ∨
        ∃ u a, (ask_endpoint am ar adb).2.messages = adb.messages ++ [u, a] ∧
          u.sender = "human" ∧ a.sender = "ai") ∧
      ((ask_endpoint am ar adb).2.conversations = adb.conversations ∨
        ∃ c, (ask_endpoint am ar adb).2.conversations = adb.conversations ++ [c]) := by
    rcases hres : resolveConversation "ask" ar.conversation_id adb with err | ⟨conv, db1⟩
    · rw [ask_endpoint_notFound_run am ar adb err hres]
      exact ⟨rfl, Or.inl rfl, Or.inl rfl⟩
    · obtain ⟨hm, hf, hc⟩ := resolveConversation_state _ _ _ _ _ hres
      have hcgoal : db1.conversations = adb.conversations ∨
          ∃ c, db1.conversations = adb.conversations ++ [c] := by
        rcases hc with hc | hc
        · exact Or.inl hc
        · exact Or.inr ⟨conv, hc⟩
      rcases hmod : am (assembleHistory askSystemPrompt
          (listMessages db1 conv.id) ar.message) with e | content
      · rw [ask_endpoint_upstream_run am ar adb conv db1 e hres hmod]
        exact ⟨hf, Or.inl hm, hcgoal⟩
      · obtain ⟨-, hcv, hmsg, hfl⟩ :=
          ask_endpoint_ok_run am ar adb conv db1 content hres hmod
        refine ⟨hfl.trans hf,
          Or.inr ⟨humanRow conv.id ar.message db1.tick "ask",
                  aiRow conv.id content (db1.tick + 1) "ask", ?_, rfl, rfl⟩, ?_⟩
        · rw [hmsg, hm]
        · rw [hcv]
          exact hcgoal
  have hedit : (((edit_endpoint em er edb).2.messages = edb.messages ∧
        (edit_endpoint em er edb).2.files = edb.files) ∨
      ∃ u a F, (edit_endpoint em er edb).2.messages = edb.messages ++ [u, a] ∧
        u.sender = "human" ∧ a.sender = "ai" ∧
        (edit_endpoint em er edb).2.files = edb.files ++ F ∧
        ∀ f ∈ F, f.message_id = a.id) ∧
      ((edit_endpoint em er edb).2.conversations = edb.conversations ∨
        ∃ c, (edit_endpoint em er edb).2.conversations = edb.conversations ++ [c]) := by
    rcases hres : resolveConversation "edit" er.conversation_id edb with err | ⟨conv, db1⟩
    · rw [edit_endpoint_notFound_run em er edb err hres]
      exact ⟨Or.inl ⟨rfl, rfl⟩, Or.inl rfl⟩
    · obtain ⟨hm, hf, hc⟩ := resolveConversation_state _ _ _ _ _ hres
      have hcgoal : db1.conversations = edb.conversations ∨
          ∃ c, db1.conversations = edb.conversations ++ [c] := by
        rcases hc with hc | hc
        · exact Or.inl hc
        · exact Or.inr ⟨conv, hc⟩
      rcases hmod : em (assembleHistory editSystemPrompt
          (listMessages db1 conv.id) (buildPrompt er)) with e | resp
      · rw [edit_endpoint_upstream_run em er edb conv db1 e hres hmod]
        exact ⟨Or.inl ⟨hm, hf⟩, hcgoal⟩
      · obtain ⟨-, hcv, hmsg, hfl⟩ :=
          edit_endpoint_ok_run em er edb conv db1 resp hres hmod
        refine ⟨Or.inr ⟨humanRow conv.id (buildPrompt er) db1.tick "edit",
            aiRow conv.id resp.content (db1.tick + 1) "edit",
            er.files.enum.map (fun fi =>
              { id := "file-" ++ toString (db1.tick + 2 + fi.1),
                message_id := "msg-" ++ toString (db1.tick + 1),
                file_content := fi.2.2, file_name := fi.2.1 }),
            ?_, rfl, rfl, ?_, ?_⟩, ?_⟩
        · rw [hmsg, hm]
        · rw [hfl, hf]
        · intro f hfF
          obtain ⟨x, hx, hmap⟩ := List.mem_map.mp hfF
          rw [← hmap]
          rfl
        · rw [hcv]
          exact hcgoal
  exact ⟨hask.1, hask.2.1, hask.2.2, hedit.1, hedit.2⟩

/-- C5.  If the model invocation raises, the error surfaces to the caller
unchanged (wrapped as the upstream outcome) and the persistence step never
runs: the final message and file tables are exactly the pre-request ones.
The hypotheses say only that conversation resolution succeeded, i.e. that
the model call was actually reached. -/
theorem c5_upstream_no_persistence (e : String) (db : DBState)
    (reqA : AskRequest) (reqE : EditRequest)
    (cA : Conversation) (dbA : DBState) (cE : Conversation) (dbE : DBState)
    (hA : resolveConversation "ask" reqA.conversation_id db = Except.ok (cA, dbA))
    (hE : resolveConversation "edit" reqE.conversation_id db = Except.ok (cE, dbE)) :
    ask_endpoint (fun _ => Except.error e) reqA db =
      (Except.error (ApiError.upstream e), dbA) ∧
    dbA.messages = db.messages ∧ dbA.files = db.files ∧
    edit_endpoint (fun _ => Except.error e) reqE db =
      (Except.error (ApiError.upstream e), dbE) ∧
    dbE.messages = db.messages ∧ dbE.files = db.files := by
  obtain ⟨hm1, hf1, -⟩ := resolveConversation_state _ _ _ _ _ hA
  obtain ⟨hm2, hf2, -⟩ := resolveConversation_state _ _ _ _ _ hE
  exact ⟨ask_endpoint_upstream_run _ _ _ _ _ e hA rfl, hm1, hf1,
         edit_endpoint_upstream_run _ _ _ _ _ e hE rfl, hm2, hf2⟩

/-- The state after resolving a fresh ask conversation on the empty store. -/
def dbA0 : DBState :=
  { conversations := [{ id := "conv-0", created_at := 0, agent_type := "ask" }],
    messages := [], files := [], tick := 1 }

/-- The state after resolving a fresh edit conversation on the empty store. -/
def dbE0 : DBState :=
  { conversations := [{ id := "conv-0", created_at := 0, agent_type := "edit" }],
    messages := [], files := [], tick := 1 }

/-- C5 witness: concrete failing-model runs of both endpoints. -/
theorem c5_witness :
    ask_endpoint (fun _ => Except.error "boom")
        { message := "hi", conversation_id := none } db0 =
      (Except.error (ApiError.upstream "boom"), dbA0) ∧
    edit_endpoint (fun _ => Except.error "boom")
        { prompt := "p", files := [], conversation_id := none } db0 =
      (Except.error (ApiError.upstream "boom"), dbE0) := by
  have h := c5_upstream_no_persistence "boom" db0
    { message := "hi", conversation_id := none }
    { prompt := "p", files := [], conversation_id := none }
    { id := "conv-0", created_at := 0, agent_type := "ask" } dbA0
    { id := "conv-0", created_at := 0, agent_type := "edit" } dbE0 rfl rfl
  exact ⟨h.1, h.2.2.2.1⟩

/-- C6.  History assembly is order-preserving: when the stored turns of a
conversation have strictly increasing creation timestamps (which every run
of the embedding guarantees, and which real runs approximate with uuid
tie-breaking left open by the spec), the assembled model input is exactly
the persona system prompt, then the prior turns in the order they were
appended (equal to ascending-timestamp order) each mapped through the
sender-to-role dispatch, then the new user turn last. -/
theorem c6_history_order (db : DBState) (cid sys newInput : String)
    (h : (db.messages.filter (fun m => m.conversation_id == cid)).Pairwise
      (fun a b => a.created_at < b.created_at)) :
    assembleHistory sys (listMessages db cid) newInput =
      ChatMessage.system sys ::
        ((db.messages.filter (fun m => m.conversation_id == cid)).map
            mapStoredMessage ++ [ChatMessage.human newInput]) := by
  have hs : listMessages db cid =
      db.messages.filter (fun m => m.conversation_id == cid) := by
    unfold listMessages
    exact List.Sorted.insertionSort_eq (h.imp (fun hab => Nat.le_of_lt hab))
  rw [assembleHistory, hs]

/-- Database fixture for the C6 witness: two prior turns in conversation
`c` plus an unrelated message in another conversation. -/
def dbC6 : DBState :=
  { conversations := [{ id := "c", created_at := 0, agent_type := "ask" }],
    messages :=
      [{ id := "m1", conversation_id := "c", sender := "human", content := "q1",
         created_at := 1, message_type := "ask" },
       { id := "m2", conversation_id := "c", sender := "ai", content := "a1",
         created_at := 2, message_type := "ask" },
       { id := "m3", conversation_id := "zzz", sender := "human",
         content := "other", created_at := 0, message_type := "ask" }],
    files := [], tick := 3 }

/-- C6 witness: the assembled sequence for the concrete two-turn history. -/
theorem c6_witness :
    assembleHistory "sys" (listMessages dbC6 "c") "q2" =
      [ChatMessage.system "sys", ChatMessage.human "q1", ChatMessage.ai "a1",
       ChatMessage.human "q2"] :=
  (c6_history_order dbC6 "c" "sys" "q2" (by decide)).trans rfl

/-- C7.  The serialized file block of the edit flow renders the files in the
caller-supplied order (the guard on empty `files` being redundant, the block
is always the join of the per-file renderings in request order), and for
each file the rendered line list is a permutation of the supplied lines
arranged ascending by line number.  Determinism is immediate:
`fileLinesPrompt` is a function of the request content alone. -/
theorem c7_serialization (files : List (String × List (Nat × String))) :
    fileLinesPrompt files = strJoin "\n" (files.map renderFileBlock) ∧
    ∀ f ∈ files, (sortedItems f.2).Perm f.2 ∧
      (sortedItems f.2).Pairwise lineLe := by
  constructor
  · cases files with
    | nil => rfl
    | cons f fs => rfl
  · intro f _
    exact ⟨List.perm_insertionSort lineLe f.2,
           List.sorted_insertionSort lineLe f.2⟩

/-- C7 witness: lines supplied out of order come out sorted ascending, and
the full rendering of the spec's example shape is the expected text. -/
theorem c7_witness :
    (sortedItems [(2, "y"), (1, "x")]).Perm [(2, "y"), (1, "x")] ∧
    (sortedItems [(2, "y"), (1, "x")]).Pairwise lineLe ∧
    fileLinesPrompt [("a.py", [(2, "y"), (1, "x")])] = "a.py:\n1: x\n2: y" := by
  have h := c7_serialization [("a.py", [(2, "y"), (1, "x")])]
  have h2 := h.2 ("a.py", [(2, "y"), (1, "x")]) (by simp)
  exact ⟨h2.1, h2.2, h.1.trans rfl⟩

/-- C8 amended.  Conversation resolution is idempotent for every non-empty
existing id: the stored conversation itself is returned and the state is
untouched, so a second request with the same id resolves to the same
identity and no duplicate record appears; with a non-empty id supplied the
conversation table is never grown.  But creation happens not only when the
id is omitted: the code's truthiness test also creates on an explicit empty
string (see the counterexample). -/
theorem c8_amended (persona cid : String) (db : DBState) (c : Conversation)
    (hne : cid ≠ "") :
    (findConversation db cid persona = some c →
      resolveConversation persona (some cid) db = Except.ok (c, db)) ∧
    (∀ c' db', resolveConversation persona (some cid) db = Except.ok (c', db') →
      db'.conversations = db.conversations) ∧
    resolveConversation persona none db =
      Except.ok (createConversation persona db) ∧
    resolveConversation persona (some "") db =
      Except.ok (createConversation persona db) := by
  have hbeq : (cid == "") = false := beq_eq_false_iff_ne.mpr hne
  refine ⟨?_, ?_, rfl, rfl⟩
  · intro hf
    simp [resolveConversation, hbeq, hf]
  · intro c' db' h
    simp only [resolveConversation, hbeq, Bool.false_eq_true, if_false] at h
    split at h
    · simp only [Except.ok.injEq, Prod.mk.injEq] at h
      rw [← h.2]
    · simp at h

/-- Stored conversation used by the C8 witness. -/
def convW8 : Conversation := { id := "c1", created_at := 0, agent_type := "ask" }

/-- Database fixture for the C8 witness. -/
def dbW8 : DBState :=
  { conversations := [convW8], messages := [], files := [], tick := 1 }

/-- C8 witness: resolving an existing id returns that very record and leaves
the store untouched (hence a second identical request resolves to the same
identity with no duplicate). -/
theorem c8_witness :
    resolveConversation "ask" (some "c1") dbW8 = Except.ok (convW8, dbW8) :=
  (c8_amended "ask" "c1" dbW8 convW8 (by decide)).1 rfl

/-- C9.  The role dispatch of history assembly is total: every stored
message maps to either the human or the AI role (none is rejected), and it
maps to the human role exactly when the stored sender string is `"human"` —
any other sender, however malformed, becomes an AI turn. -/
theorem c9_role_dispatch (m : Message) :
    (mapStoredMessage m = ChatMessage.human m.content ∨
      mapStoredMessage m = ChatMessage.ai m.content) ∧
    (mapStoredMessage m = ChatMessage.human m.content ↔ m.sender = "human") := by
  unfold mapStoredMessage
  by_cases h : m.sender = "human"
  · simp [h]
  · have hbeq : (m.sender == "human") = false := beq_eq_false_iff_ne.mpr h
    simp [hbeq, h]

/-- Stored message with an unrecognized sender tag, for the C9 witness. -/
def msgW9 : Message :=
  { id := "m1", conversation_id := "c", sender := "assistant",
    content := "hello", created_at := 0, message_type := "ask" }

/-- C9 witness: the dispatch is total on the unrecognized sender. -/
theorem c9_witness :
    mapStoredMessage msgW9 = ChatMessage.human msgW9.content ∨
    mapStoredMessage msgW9 = ChatMessage.ai msgW9.content :=
  (c9_role_dispatch msgW9).1

/-- C10.  In the edit flow the persisted human turn is the AUGMENTED prompt,
not the raw request prompt: the stored sender/content trace extends the old
one by exactly the human turn carrying `buildPrompt req` and the AI turn,
and `buildPrompt` equals the raw prompt when `files` is empty and the prompt
plus the file-listing block when it is not (the truthiness guard on the
serialized block fires exactly when `files` is non-empty). -/
theorem c10_stored_prompt (db : DBState) (p content : String)
    (files : List (String × List (Nat × String))) (tcs : List Jv) :
    ((edit_endpoint (fun _ => Except.ok { content := content, tool_calls := tcs })
        { prompt := p, files := files, conversation_id := none } db).2.messages.map
          (fun m => (m.sender, m.content))) =
      db.messages.map (fun m => (m.sender, m.content)) ++
        [("human", buildPrompt { prompt := p, files := files, conversation_id := none }),
         ("ai", content)] ∧
    (files = [] →
      buildPrompt { prompt := p, files := files, conversation_id := none } = p) ∧
    (files ≠ [] →
      buildPrompt { prompt := p, files := files, conversation_id := none } =
        p ++ "\n\nFiles:\n" ++ fileLinesPrompt files) := by
  obtain ⟨-, -, hmsg, -⟩ := edit_endpoint_ok_run
    (fun _ => Except.ok { content := content, tool_calls := tcs })
    { prompt := p, files := files, conversation_id := none } db
    (createConversation "edit" db).1 (createConversation "edit" db).2
    { content := content, tool_calls := tcs } rfl rfl
  refine ⟨?_, ?_, ?_⟩
  · rw [hmsg]
    simp [createConversation, humanRow, aiRow]
  · intro h
    subst h
    rfl
  · intro h
    have hne := fileLinesPrompt_ne_empty files h
    have hbeq : (fileLinesPrompt files == "") = false :=
      beq_eq_false_iff_ne.mpr hne
    simp [buildPrompt, hbeq]

/-- C10 witness: concrete run with one supplied file; the stored human turn
carries the prompt plus the rendered file listing. -/
theorem c10_witness :
    ((edit_endpoint (fun _ => Except.ok { content := "ok", tool_calls := [] })
        { prompt := "fix", files := [("a.py", [(1, "x")])],
          conversation_id := none } db0).2.messages.map
          (fun m => (m.sender, m.content))) =
      [("human", "fix\n\nFiles:\na.py:\n1: x"), ("ai", "ok")] ∧
    buildPrompt
        { prompt := "fix", files := [("a.py", [(1, "x")])],
          conversation_id := none } =
      "fix" ++ "\n\nFiles:\n" ++ fileLinesPrompt [("a.py", [(1, "x")])] := by
  have h := c10_stored_prompt db0 "fix" "ok" [("a.py", [(1, "x")])] []
  exact ⟨h.1.trans rfl, h.2.2 (by decide)⟩

end AgentServer
